import Mathlib

/-!
# Verification of the diff-decoding pipeline of `consumer.py`

Shallow embedding of the pure core of `src/consumer.py`:

* `parse_osm_create` (lines 41-172): the create-action decoder that produces the
  nodes / ways / relations / members / tags row lists and updates the module
  global `max_changeset_id`;
* the checkpoint epilogue of `main` (lines 279-281).

Modelling conventions:

* XML documents are represented by `XML` (tag, attribute dictionary, children in
  document order); text content never matters to the source and is not modelled.
* Python exceptions are modelled with `Except PyErr`; the module globals
  `max_changeset_id` and `ETAG_PATH`, which the source never assigns, are
  modelled as `Option` values where `none` means "unset, reading raises
  NameError".
* Python floats (way coordinates) are idealized as exact decimal rationals:
  `parseFloatStr` parses plain decimal literals and `formatFloat` prints them
  the way CPython prints such values.  Binary-float rounding, exponent
  literals, inf/nan and `-0.0` are outside the model.
* `datetime.strptime(t, "%Y-%m-%dT%H:%M:%SZ")` yields a NAIVE datetime whose
  `.timestamp()` depends on the process local timezone; that offset (seconds
  east of UTC) is the explicit `tzOff` parameter threaded through the parser.
-/

namespace Consumer

/-- A parsed XML element: tag name, attribute dictionary (ElementTree `attrib`,
first binding wins), and child elements in document order. -/
inductive XML : Type where
  | mk (tag : String) (attribs : List (String × String)) (children : List XML)

def XML.tag : XML → String
  | XML.mk t _ _ => t

def XML.attribs : XML → List (String × String)
  | XML.mk _ a _ => a

def XML.children : XML → List XML
  | XML.mk _ _ c => c

/-- `elem.attrib.get(k)`: the value of attribute `k`, `None` when absent. -/
def XML.attr (x : XML) (k : String) : Option String :=
  Option.map Prod.snd (List.find? (fun p => p.fst == k) x.attribs)

/-- `elem.findall(t)`: the direct children whose tag is `t`, in document order. -/
def XML.findall (x : XML) (t : String) : List XML :=
  List.filter (fun c => XML.tag c == t) x.children

/-- Lines 64-68: `action.find("new/*")`, falling back to `action.find("*")`.
`find("new/*")` returns the first grandchild under any `new` child, in document
order; `find("*")` returns the first child of the action, whatever its tag. -/
def findCreatedElem (action : XML) : Option XML :=
  match List.head? (List.flatten (List.map XML.children (XML.findall action ("new")))) with
  | some e => some e
  | none => List.head? (XML.children action)

/-- The Python exceptions the embedded fragments can raise. -/
inductive PyErr : Type where
  | typeError
  | valueError
  | nameError
deriving DecidableEq, Repr

/-- Whitespace stripped by Python's `int()` / `float()` string conversion. -/
def isPySpace (c : Char) : Bool :=
  c == ' ' || c == '\t' || c == '\n' || c == '\r' || c == '\x0c' || c == '\x0b'

def trimChars (l : List Char) : List Char :=
  List.reverse (List.dropWhile isPySpace (List.reverse (List.dropWhile isPySpace l)))

def isDig (c : Char) : Bool := 48 ≤ c.toNat && c.toNat ≤ 57

def digitsToNat (l : List Char) : Nat :=
  List.foldl (fun acc c => 10 * acc + (c.toNat - 48)) 0 l

/-- Python `int(s)` on a `str`: optional surrounding whitespace, optional sign,
then a nonempty run of decimal digits; anything else raises ValueError
(`none` here).  Python's underscore digit grouping is not modelled. -/
def parseIntStr (s : String) : Option Int :=
  let l := trimChars s.data
  let signed : Int × List Char :=
    match l with
    | '-' :: rest => (-1, rest)
    | '+' :: rest => (1, rest)
    | _ => (1, l)
  if (!List.isEmpty signed.snd) && List.all signed.snd isDig then
    some (signed.fst * Int.ofNat (digitsToNat signed.snd))
  else none

/-- Python `int(s)` on a present string: ValueError when unparsable. -/
def pyIntStr (s : String) : Except PyErr Int :=
  match parseIntStr s with
  | none => Except.error PyErr.valueError
  | some n => Except.ok n

/-- Line 86: `int(elem.attrib.get("changeset"))` — `int(None)` raises TypeError,
an unparsable string raises ValueError. -/
def pyIntOf : Option String → Except PyErr Int
  | none => Except.error PyErr.typeError
  | some s => pyIntStr s

/-- Python `float(s)` for plain decimal literals, as an exact rational:
optional whitespace and sign, integer digits, optional `.` and fraction digits
(at least one digit overall).  Exponent forms, inf/nan and binary-float
rounding are not modelled. -/
def parseFloatStr (s : String) : Option ℚ :=
  let l := trimChars s.data
  let signed : ℚ × List Char :=
    match l with
    | '-' :: rest => (-1, rest)
    | '+' :: rest => (1, rest)
    | _ => (1, l)
  let ip := List.takeWhile isDig signed.snd
  let rest := List.dropWhile isDig signed.snd
  match rest with
  | [] =>
    if List.isEmpty ip then none
    else some (signed.fst * (digitsToNat ip : ℚ))
  | '.' :: fr =>
    if List.all fr isDig && !(List.isEmpty ip && List.isEmpty fr) then
      some (signed.fst *
        ((digitsToNat ip : ℚ) + (digitsToNat fr : ℚ) / (10 : ℚ) ^ List.length fr))
    else none
  | _ => none

def fracDigitsAux (d : Nat) : Nat → Nat → List Char
  | 0, _ => []
  | _ + 1, 0 => []
  | fuel + 1, rem => Char.ofNat (48 + rem * 10 / d) :: fracDigitsAux d fuel (rem * 10 % d)

/-- `str()` of a Python float under the exact-decimal idealization: sign,
integer part, point, fraction digits (a single `0` when the value is integral),
matching CPython's rendering of such values; at most 40 fraction digits. -/
def formatFloat (q : ℚ) : String :=
  let n := Int.natAbs q.num
  let frl := fracDigitsAux q.den 40 (n % q.den)
  let fr := if List.isEmpty frl then "0" else String.mk frl
  (if q < 0 then "-" else "") ++ toString (n / q.den) ++ "." ++ fr

def isLeap (y : Nat) : Bool := (y % 4 == 0 && y % 100 != 0) || y % 400 == 0

def daysInMonth (y m : Nat) : Nat :=
  if m == 2 then (if isLeap y then 29 else 28)
  else if m == 4 || m == 6 || m == 9 || m == 11 then 30
  else 31

def dig2 (a b : Char) : Nat := 10 * (a.toNat - 48) + (b.toNat - 48)

/-- `datetime.strptime(s, "%Y-%m-%dT%H:%M:%SZ")` succeeding: the exact
20-character padded shape with a valid proleptic-Gregorian date (`datetime`
requires year ≥ 1).  strptime's acceptance of unpadded numeric fields is not
modelled; no claim here depends on unpadded inputs. -/
def parseIsoTs (s : String) : Option (Nat × Nat × Nat × Nat × Nat × Nat) :=
  match s.data with
  | [y1, y2, y3, y4, '-', m1, m2, '-', d1, d2, 'T',
     h1, h2, ':', n1, n2, ':', s1, s2, 'Z'] =>
    if List.all [y1, y2, y3, y4, m1, m2, d1, d2, h1, h2, n1, n2, s1, s2] isDig then
      let y := 100 * dig2 y1 y2 + dig2 y3 y4
      let mo := dig2 m1 m2
      let d := dig2 d1 d2
      if 1 ≤ y ∧ 1 ≤ mo ∧ mo ≤ 12 ∧ 1 ≤ d ∧ d ≤ daysInMonth y mo
          ∧ dig2 h1 h2 ≤ 23 ∧ dig2 n1 n2 ≤ 59 ∧ dig2 s1 s2 ≤ 59 then
        some (y, mo, d, dig2 h1 h2, dig2 n1 n2, dig2 s1 s2)
      else none
    else none
  | _ => none

/-- Days from 1970-01-01 to year-month-day (proleptic Gregorian, year ≥ 1,
1 ≤ month ≤ 12), by the standard civil-from-date computation. -/
def daysFromCivil (y m d : Nat) : Int :=
  let yy := if m ≤ 2 then y - 1 else y
  let era := yy / 400
  let yoe := yy % 400
  let mp := if m ≤ 2 then m + 9 else m - 3
  let doy := (153 * mp + 2) / 5 + d - 1
  let doe := yoe * 365 + yoe / 4 - yoe / 100 + doy
  Int.ofNat (era * 146097 + doe) - 719468

/-- Lines 74-78: `int(datetime.strptime(t, "%Y-%m-%dT%H:%M:%SZ").timestamp() * 1000)`,
with `None` on any parse failure.  strptime yields a naive datetime and
`.timestamp()` interprets it in the process local timezone; `tzOff` is that
zone's offset from UTC in seconds (0 when the process runs with TZ=UTC). -/
def tsToEpochMillis (tzOff : Int) (t : String) : Option Int :=
  match parseIsoTs t with
  | none => none
  | some (y, mo, d, h, mi, se) =>
    some ((daysFromCivil y mo d * 86400 + Int.ofNat (h * 3600 + mi * 60 + se) - tzOff) * 1000)

/-- Lines 70-80: the element's `epochMillis`.  Python's `if timestamp:` guard is
False both for a missing attribute and for the empty string. -/
def elemEpochMillis (tzOff : Int) (e : XML) : Option Int :=
  match XML.attr e ("timestamp") with
  | none => none
  | some t => if t == "" then none else tsToEpochMillis tzOff t

/-- A row of `tags_rows` (lines 92-100). -/
structure TagRow : Type where
  epochMillis : Option Int
  type : String
  id : Option String
  key : Option String
  value : Option String
deriving DecidableEq, Repr

/-- A row of `nodes_rows` (lines 103-112). -/
structure NodeRow : Type where
  epochMillis : Option Int
  id : Option String
  version : Option String
  changeset : Option String
  username : Option String
  uid : Option String
  lat : Option String
  lon : Option String
deriving DecidableEq, Repr

/-- A row of `ways_rows` (lines 139-147). -/
structure WayRow : Type where
  epochMillis : Option Int
  id : Option String
  version : Option String
  changeset : Option String
  username : Option String
  uid : Option String
  geometry : String
deriving DecidableEq, Repr

/-- A row of `relations_rows` (lines 152-159); the dict built there has no
geometry key. -/
structure RelationRow : Type where
  epochMillis : Option Int
  id : Option String
  version : Option String
  changeset : Option String
  username : Option String
  uid : Option String
deriving DecidableEq, Repr

/-- A member row as built at lines 165-170. -/
structure MemberRow : Type where
  relationId : Option String
  memberId : Option String
  memberRole : Option String
  memberType : Option String
deriving DecidableEq, Repr

/-- Lines 89-100: one tag row per `<tag>` child of the element, with the key
taken from its `k` attribute and the value from its `v` attribute.  Element
attributes are not visited, and no key is excluded. -/
def tagRowsOf (tzOff : Int) (e : XML) : List TagRow :=
  List.map
    (fun t =>
      { epochMillis := elemEpochMillis tzOff e
        type := XML.tag e
        id := XML.attr e ("id")
        key := XML.attr t ("k")
        value := XML.attr t ("v") })
    (XML.findall e ("tag"))

/-- Lines 116-128: the way's usable coordinate list, `(lon, lat)` per `<nd>`
child that carries both attributes with parsable values; unusable children are
skipped. -/
def wayCoords (e : XML) : List (ℚ × ℚ) :=
  List.filterMap
    (fun nd =>
      match XML.attr nd ("lat"), XML.attr nd ("lon") with
      | some lat, some lon =>
        match parseFloatStr lon, parseFloatStr lat with
        | some lo, some la => some (lo, la)
        | _, _ => none
      | _, _ => none)
    (XML.findall e ("nd"))

/-- Lines 132 and 135: `", ".join(f"(lon) (lat)" for pt in coords)` with lon
before lat. -/
def coordStr (coords : List (ℚ × ℚ)) : String :=
  String.intercalate (", ")
    (List.map (fun pt => formatFloat pt.fst ++ " " ++ formatFloat pt.snd) coords)

/-- Lines 129-138: empty string for an empty coordinate list; POLYGON when at
least 4 points and the first pair exactly equals the last; LINESTRING
otherwise. -/
def buildWkt (coords : List (ℚ × ℚ)) : String :=
  if coords = [] then ""
  else if 4 ≤ List.length coords ∧ List.head? coords = List.getLast? coords then
    "POLYGON((" ++ coordStr coords ++ "))"
  else "LINESTRING(" ++ coordStr coords ++ ")"

/-- Lines 103-112. -/
def nodeRowOf (tzOff : Int) (e : XML) : NodeRow :=
  { epochMillis := elemEpochMillis tzOff e
    id := XML.attr e ("id")
    version := XML.attr e ("version")
    changeset := XML.attr e ("changeset")
    username := XML.attr e ("user")
    uid := XML.attr e ("uid")
    lat := XML.attr e ("lat")
    lon := XML.attr e ("lon") }

/-- Lines 114-148. -/
def wayRowOf (tzOff : Int) (e : XML) : WayRow :=
  { epochMillis := elemEpochMillis tzOff e
    id := XML.attr e ("id")
    version := XML.attr e ("version")
    changeset := XML.attr e ("changeset")
    username := XML.attr e ("user")
    uid := XML.attr e ("uid")
    geometry := buildWkt (wayCoords e) }

/-- Lines 152-160. -/
def relationRowOf (tzOff : Int) (e : XML) : RelationRow :=
  { epochMillis := elemEpochMillis tzOff e
    id := XML.attr e ("id")
    version := XML.attr e ("version")
    changeset := XML.attr e ("changeset")
    username := XML.attr e ("user")
    uid := XML.attr e ("uid") }

/-- The member-row dict built once per `<member>` child at lines 165-170.
`relId` is the owning relation's `elem_id`, captured before the loop variable
shadows `elem`.  The source builds each dict and then DROPS it: the
`members_rows.append(row)` call is missing, so these rows never reach the
returned members list. -/
def memberRowOf (relId : Option String) (m : XML) : MemberRow :=
  { relationId := relId
    memberId := XML.attr m ("ref")
    memberRole := XML.attr m ("role")
    memberType := XML.attr m ("type") }

/-- The five row lists plus the module global `max_changeset_id`
(`none` = never assigned; reading it raises NameError). -/
structure ParseState : Type where
  nodes : List NodeRow
  ways : List WayRow
  relations : List RelationRow
  members : List MemberRow
  tags : List TagRow
  changeset : Option Int
deriving DecidableEq, Repr

def initState (g : Option Int) : ParseState :=
  { nodes := [], ways := [], relations := [], members := [], tags := [], changeset := g }

/-- Per-element list contribution to `nodes_rows` (line 102/113). -/
def nodeRowsOf (tzOff : Int) (e : XML) : List NodeRow :=
  if XML.tag e = "node" then [nodeRowOf tzOff e] else []

/-- Per-element list contribution to `ways_rows` (line 114/148). -/
def wayRowsOf (tzOff : Int) (e : XML) : List WayRow :=
  if XML.tag e = "way" then [wayRowOf tzOff e] else []

/-- Per-element list contribution to `relations_rows` (line 149/160). -/
def relationRowsOf (tzOff : Int) (e : XML) : List RelationRow :=
  if XML.tag e = "relation" then [relationRowOf tzOff e] else []

/-- Lines 102-171: the `elem_type` dispatch.  Tags were already appended; the
member rows of a relation are built but never appended (see `memberRowOf`), so
only the relation metadata row is recorded; an unrecognized tag falls through
every branch and appends nothing. -/
def dispatchRows (tzOff : Int) (st : ParseState) (e : XML) : ParseState :=
  if XML.tag e = "node" then { st with nodes := st.nodes ++ [nodeRowOf tzOff e] }
  else if XML.tag e = "way" then { st with ways := st.ways ++ [wayRowOf tzOff e] }
  else if XML.tag e = "relation" then
    { st with relations := st.relations ++ [relationRowOf tzOff e] }
  else st

/-- Lines 70-171 for one created element: read the global `max_changeset_id`
(NameError when never assigned), coerce the changeset with bare `int(...)`
(line 86), append this element's tag rows (lines 89-100), then dispatch on the
element tag (lines 102-171). -/
def processElem (tzOff : Int) (st : ParseState) (e : XML) : Except PyErr ParseState :=
  match st.changeset with
  | none => Except.error PyErr.nameError
  | some prev =>
    match pyIntOf (XML.attr e ("changeset")) with
    | Except.error er => Except.error er
    | Except.ok cs =>
      Except.ok (dispatchRows tzOff
        { st with changeset := some (max prev cs), tags := st.tags ++ tagRowsOf tzOff e } e)

/-- Lines 58-68: skip non-create actions and create actions with no element;
otherwise process the found element. -/
def processAction (tzOff : Int) (st : ParseState) (a : XML) : Except PyErr ParseState :=
  if XML.attr a ("type") = some ("create") then
    match findCreatedElem a with
    | none => Except.ok st
    | some e => processElem tzOff st e
  else Except.ok st

/-- The `for action in root.findall("action")` loop; an uncaught exception in
any iteration aborts the whole call, discarding the local row lists. -/
def foldActions (tzOff : Int) : ParseState → List XML → Except PyErr ParseState
  | st, [] => Except.ok st
  | st, a :: rest =>
    match processAction tzOff st a with
    | Except.error er => Except.error er
    | Except.ok st' => foldActions tzOff st' rest

/-- `parse_osm_create` (lines 41-172): `g` is the module global
`max_changeset_id` at entry — `none` in the source, which never assigns it
before use.  Returns the five row lists and the final global. -/
def parse_osm_create (tzOff : Int) (root : XML) (g : Option Int) : Except PyErr ParseState :=
  foldActions tzOff (initState g) (XML.findall root ("action"))

def isCreateAction (a : XML) : Bool := XML.attr a ("type") == some ("create")

/-- The create actions of the document, in document order. -/
def createActions (root : XML) : List XML :=
  List.filter isCreateAction (XML.findall root ("action"))

/-- The created elements, in document order (create actions whose element is
found). -/
def createElems (root : XML) : List XML :=
  List.filterMap findCreatedElem (createActions root)

def elemsOfActions (acts : List XML) : List XML :=
  List.filterMap findCreatedElem (List.filter isCreateAction acts)

/-- The document with only its create actions kept (the pure `kind == create`
filter of the spec). -/
def onlyCreateActions (root : XML) : XML :=
  XML.mk (XML.tag root) (XML.attribs root) (createActions root)

/-- The max-fold of line 86 over a list of elements, starting from `v`:
`acc = max(acc, int(e.attrib.get("changeset")))`. -/
def csFold (v : Int) : List XML → Except PyErr Int
  | [] => Except.ok v
  | e :: rest =>
    match pyIntOf (XML.attr e ("changeset")) with
    | Except.error er => Except.error er
    | Except.ok cs => csFold (max v cs) rest

/-- Reading a Python global: NameError when it was never assigned. -/
def readGlobal {α : Type} : Option α → Except PyErr α
  | none => Except.error PyErr.nameError
  | some v => Except.ok v

/-- A Python value handed to `fh.write`. -/
inductive PyVal : Type where
  | str (s : String)
  | int (n : Int)
deriving DecidableEq, Repr

/-- `TextIOBase.write` accepts only `str`; line 281 passes the int
`max_changeset_id`, which raises TypeError. -/
def fileWrite : PyVal → Except PyErr String
  | PyVal.str s => Except.ok s
  | PyVal.int _ => Except.error PyErr.typeError

/-- The module global `ETAG_PATH`: referenced at line 280 but never assigned
anywhere in `consumer.py`, so reading it raises NameError. -/
def ETAG_PATH : Option String := none

/-- Lines 279-281: print `max_changeset_id` (reads the global), open
`ETAG_PATH` (reads the global), and `fh.write(max_changeset_id)` (an int).
Returns the text that would reach the checkpoint file. -/
def checkpointEpilogue (etagPath : Option String) (g : Option Int) : Except PyErr String :=
  match readGlobal g with
  | Except.error er => Except.error er
  | Except.ok v =>
    match readGlobal etagPath with
    | Except.error er => Except.error er
    | Except.ok _ => fileWrite (PyVal.int v)

/-! ## Structural lemmas about the action fold -/

theorem pyIntOf_some (s : String) : pyIntOf (some s) = pyIntStr s := rfl

theorem pyIntStr_none (s : String) (h : parseIntStr s = none) :
    pyIntStr s = Except.error PyErr.valueError := by
  unfold pyIntStr
  rw [h]

theorem processElem_none (tzOff : Int) (st : ParseState) (e : XML)
    (hg : st.changeset = none) :
    processElem tzOff st e = Except.error PyErr.nameError := by
  unfold processElem
  rw [hg]

theorem processElem_ok (tzOff : Int) (st : ParseState) (e : XML) (v cs : Int)
    (hg : st.changeset = some v)
    (hcs : pyIntOf (XML.attr e ("changeset")) = Except.ok cs) :
    processElem tzOff st e = Except.ok (dispatchRows tzOff
      { st with changeset := some (max v cs), tags := st.tags ++ tagRowsOf tzOff e } e) := by
  unfold processElem
  rw [hg, hcs]

theorem processElem_err (tzOff : Int) (st : ParseState) (e : XML) (v : Int) (er : PyErr)
    (hg : st.changeset = some v)
    (hcs : pyIntOf (XML.attr e ("changeset")) = Except.error er) :
    processElem tzOff st e = Except.error er := by
  unfold processElem
  rw [hg, hcs]

theorem processElem_ok_inv (tzOff : Int) (st : ParseState) (e : XML) (st' : ParseState)
    (h : processElem tzOff st e = Except.ok st') :
    ∃ v cs, st.changeset = some v ∧ pyIntOf (XML.attr e ("changeset")) = Except.ok cs ∧
      st' = dispatchRows tzOff
        { st with changeset := some (max v cs), tags := st.tags ++ tagRowsOf tzOff e } e := by
  cases hg : st.changeset with
  | none =>
    rw [processElem_none tzOff st e hg] at h
    exact absurd h (by simp)
  | some v =>
    cases hcs : pyIntOf (XML.attr e ("changeset")) with
    | error er =>
      rw [processElem_err tzOff st e v er hg hcs] at h
      exact absurd h (by simp)
    | ok cs =>
      rw [processElem_ok tzOff st e v cs hg hcs] at h
      injection h with h
      exact ⟨v, cs, rfl, rfl, h.symm⟩

theorem dispatchRows_spec (tzOff : Int) (st : ParseState) (e : XML) :
    dispatchRows tzOff st e =
      { nodes := st.nodes ++ nodeRowsOf tzOff e
        ways := st.ways ++ wayRowsOf tzOff e
        relations := st.relations ++ relationRowsOf tzOff e
        members := st.members
        tags := st.tags
        changeset := st.changeset } := by
  unfold dispatchRows nodeRowsOf wayRowsOf relationRowsOf
  by_cases h1 : XML.tag e = "node"
  · simp [h1]
  · by_cases h2 : XML.tag e = "way"
    · simp [h1, h2]
    · by_cases h3 : XML.tag e = "relation"
      · simp [h1, h2, h3]
      · simp [h1, h2, h3]

theorem dispatchRows_other (tzOff : Int) (st : ParseState) (e : XML)
    (h1 : XML.tag e ≠ "node") (h2 : XML.tag e ≠ "way") (h3 : XML.tag e ≠ "relation") :
    dispatchRows tzOff st e = st := by
  unfold dispatchRows
  simp [h1, h2, h3]

theorem processAction_not_create (tzOff : Int) (st : ParseState) (a : XML)
    (h : ¬ XML.attr a ("type") = some ("create")) :
    processAction tzOff st a = Except.ok st := by
  unfold processAction
  rw [if_neg h]

theorem processAction_no_elem (tzOff : Int) (st : ParseState) (a : XML)
    (h : XML.attr a ("type") = some ("create")) (h2 : findCreatedElem a = none) :
    processAction tzOff st a = Except.ok st := by
  unfold processAction
  rw [if_pos h, h2]

theorem processAction_elem (tzOff : Int) (st : ParseState) (a : XML) (e : XML)
    (h : XML.attr a ("type") = some ("create")) (h2 : findCreatedElem a = some e) :
    processAction tzOff st a = processElem tzOff st e := by
  unfold processAction
  rw [if_pos h, h2]

theorem foldActions_nil (tzOff : Int) (st : ParseState) :
    foldActions tzOff st [] = Except.ok st := rfl

theorem foldActions_cons (tzOff : Int) (st : ParseState) (a : XML) (rest : List XML) :
    foldActions tzOff st (a :: rest) =
      match processAction tzOff st a with
      | Except.error er => Except.error er
      | Except.ok st' => foldActions tzOff st' rest := rfl

theorem elemsOfActions_nil : elemsOfActions [] = [] := rfl

theorem elemsOfActions_cons_skip (a : XML) (rest : List XML)
    (h : ¬ XML.attr a ("type") = some ("create")) :
    elemsOfActions (a :: rest) = elemsOfActions rest := by
  unfold elemsOfActions
  have hb : isCreateAction a = false := by
    unfold isCreateAction
    simp [h]
  simp [List.filter_cons, hb]

theorem elemsOfActions_cons_no_elem (a : XML) (rest : List XML)
    (h : XML.attr a ("type") = some ("create")) (h2 : findCreatedElem a = none) :
    elemsOfActions (a :: rest) = elemsOfActions rest := by
  unfold elemsOfActions
  have hb : isCreateAction a = true := by
    unfold isCreateAction
    simp [h]
  simp [List.filter_cons, hb, List.filterMap_cons, h2]

theorem elemsOfActions_cons_elem (a : XML) (e : XML) (rest : List XML)
    (h : XML.attr a ("type") = some ("create")) (h2 : findCreatedElem a = some e) :
    elemsOfActions (a :: rest) = e :: elemsOfActions rest := by
  unfold elemsOfActions
  have hb : isCreateAction a = true := by
    unfold isCreateAction
    simp [h]
  simp [List.filter_cons, hb, List.filterMap_cons, h2]

theorem foldActions_ok (tzOff : Int) : ∀ (acts : List XML) (st r : ParseState),
    foldActions tzOff st acts = Except.ok r →
    r.nodes = st.nodes ++ List.flatten (List.map (nodeRowsOf tzOff) (elemsOfActions acts)) ∧
    r.ways = st.ways ++ List.flatten (List.map (wayRowsOf tzOff) (elemsOfActions acts)) ∧
    r.relations = st.relations ++
      List.flatten (List.map (relationRowsOf tzOff) (elemsOfActions acts)) ∧
    r.members = st.members ∧
    r.tags = st.tags ++ List.flatten (List.map (tagRowsOf tzOff) (elemsOfActions acts)) := by
  intro acts
  induction acts with
  | nil =>
    intro st r h
    rw [foldActions_nil] at h
    injection h with h
    subst h
    simp [elemsOfActions_nil]
  | cons a rest ih =>
    intro st r h
    rw [foldActions_cons] at h
    cases hpa : processAction tzOff st a with
    | error er =>
      rw [hpa] at h
      exact absurd h (by simp)
    | ok st' =>
      rw [hpa] at h
      obtain ⟨hn, hw, hr, hm, ht⟩ := ih st' r h
      by_cases hc : XML.attr a ("type") = some ("create")
      · cases hfe : findCreatedElem a with
        | none =>
          rw [processAction_no_elem tzOff st a hc hfe] at hpa
          injection hpa with hpa
          subst hpa
          rw [elemsOfActions_cons_no_elem a rest hc hfe]
          exact ⟨hn, hw, hr, hm, ht⟩
        | some e =>
          rw [processAction_elem tzOff st a e hc hfe] at hpa
          obtain ⟨v, cs, hg, hcs, hst'⟩ := processElem_ok_inv tzOff st e st' hpa
          rw [dispatchRows_spec] at hst'
          subst hst'
          rw [elemsOfActions_cons_elem a e rest hc hfe]
          simp only at hn hw hr hm ht
          refine ⟨?_, ?_, ?_, ?_, ?_⟩ <;>
            simp [hn, hw, hr, hm, ht, List.append_assoc]
      · rw [processAction_not_create tzOff st a hc] at hpa
        injection hpa with hpa
        subst hpa
        rw [elemsOfActions_cons_skip a rest hc]
        exact ⟨hn, hw, hr, hm, ht⟩

theorem foldActions_ok_changeset (tzOff : Int) : ∀ (acts : List XML) (st r : ParseState)
    (v : Int), foldActions tzOff st acts = Except.ok r → st.changeset = some v →
    ∃ w, csFold v (elemsOfActions acts) = Except.ok w ∧ r.changeset = some w := by
  intro acts
  induction acts with
  | nil =>
    intro st r v h hg
    rw [foldActions_nil] at h
    injection h with h
    subst h
    exact ⟨v, rfl, hg⟩
  | cons a rest ih =>
    intro st r v h hg
    rw [foldActions_cons] at h
    cases hpa : processAction tzOff st a with
    | error er =>
      rw [hpa] at h
      exact absurd h (by simp)
    | ok st' =>
      rw [hpa] at h
      by_cases hc : XML.attr a ("type") = some ("create")
      · cases hfe : findCreatedElem a with
        | none =>
          rw [processAction_no_elem tzOff st a hc hfe] at hpa
          injection hpa with hpa
          subst hpa
          rw [elemsOfActions_cons_no_elem a rest hc hfe]
          exact ih st r v h hg
        | some e =>
          rw [processAction_elem tzOff st a e hc hfe] at hpa
          obtain ⟨v', cs, hg', hcs, hst'⟩ := processElem_ok_inv tzOff st e st' hpa
          rw [hg] at hg'
          injection hg' with hg'
          subst hg'
          have hch : st'.changeset = some (max v cs) := by
            rw [hst', dispatchRows_spec]
          obtain ⟨w, hw1, hw2⟩ := ih st' r (max v cs) h hch
          refine ⟨w, ?_, hw2⟩
          rw [elemsOfActions_cons_elem a e rest hc hfe]
          unfold csFold
          rw [hcs]
          exact hw1
      · rw [processAction_not_create tzOff st a hc] at hpa
        injection hpa with hpa
        subst hpa
        rw [elemsOfActions_cons_skip a rest hc]
        exact ih st r v h hg

theorem foldActions_unset (tzOff : Int) : ∀ (acts : List XML) (st r : ParseState),
    st.changeset = none → foldActions tzOff st acts = Except.ok r →
    r = st ∧ elemsOfActions acts = [] := by
  intro acts
  induction acts with
  | nil =>
    intro st r hg h
    rw [foldActions_nil] at h
    injection h with h
    subst h
    exact ⟨rfl, rfl⟩
  | cons a rest ih =>
    intro st r hg h
    rw [foldActions_cons] at h
    cases hpa : processAction tzOff st a with
    | error er =>
      rw [hpa] at h
      exact absurd h (by simp)
    | ok st' =>
      rw [hpa] at h
      by_cases hc : XML.attr a ("type") = some ("create")
      · cases hfe : findCreatedElem a with
        | none =>
          rw [processAction_no_elem tzOff st a hc hfe] at hpa
          injection hpa with hpa
          subst hpa
          rw [elemsOfActions_cons_no_elem a rest hc hfe]
          exact ih st r hg h
        | some e =>
          rw [processAction_elem tzOff st a e hc hfe,
            processElem_none tzOff st e hg] at hpa
          exact absurd hpa (by simp)
      · rw [processAction_not_create tzOff st a hc] at hpa
        injection hpa with hpa
        subst hpa
        rw [elemsOfActions_cons_skip a rest hc]
        exact ih st r hg h

theorem foldActions_filter_create (tzOff : Int) : ∀ (acts : List XML) (st : ParseState),
    foldActions tzOff st (List.filter isCreateAction acts) = foldActions tzOff st acts := by
  intro acts
  induction acts with
  | nil => intro st; rfl
  | cons a rest ih =>
    intro st
    by_cases hc : XML.attr a ("type") = some ("create")
    · have hb : isCreateAction a = true := by
        unfold isCreateAction
        simp [hc]
      rw [List.filter_cons_of_pos hb, foldActions_cons, foldActions_cons]
      cases processAction tzOff st a with
      | error er => rfl
      | ok st' => exact ih st'
    · have hb : isCreateAction a = false := by
        unfold isCreateAction
        simp [hc]
      rw [List.filter_cons_of_neg (by simp [hb]), foldActions_cons,
        processAction_not_create tzOff st a hc]
      exact ih st

theorem filter_action_createActions (root : XML) :
    List.filter (fun c => XML.tag c == ("action")) (createActions root) =
      createActions root := by
  apply List.filter_eq_self.mpr
  intro a ha
  unfold createActions at ha
  have hmem : a ∈ XML.findall root ("action") := List.mem_of_mem_filter ha
  unfold XML.findall at hmem
  have hp := List.of_mem_filter hmem
  exact hp

theorem parse_onlyCreate (tzOff : Int) (root : XML) (g : Option Int) :
    parse_osm_create tzOff (onlyCreateActions root) g = parse_osm_create tzOff root g := by
  unfold parse_osm_create onlyCreateActions
  have hfa : XML.findall (XML.mk (XML.tag root) (XML.attribs root) (createActions root))
      ("action") = createActions root := by
    unfold XML.findall
    exact filter_action_createActions root
  rw [hfa]
  unfold createActions
  exact foldActions_filter_create tzOff (XML.findall root ("action")) (initState g)

theorem flatten_map_ite {β : Type} (t : String) (f : XML → β) (rows : XML → List β)
    (hrows : ∀ e, rows e = if XML.tag e = t then [f e] else []) (es : List XML) :
    List.flatten (List.map rows es) =
      List.map f (List.filter (fun e => XML.tag e == t) es) := by
  induction es with
  | nil => rfl
  | cons a l ih =>
    by_cases h : XML.tag a = t
    · simp [hrows, List.filter_cons, h, ih]
    · simp [hrows, List.filter_cons, h, ih]

theorem createElems_eq (root : XML) :
    createElems root = elemsOfActions (XML.findall root ("action")) := rfl

theorem parse_eq_fold (tzOff : Int) (root : XML) (g : Option Int) :
    parse_osm_create tzOff root g =
      foldActions tzOff (initState g) (XML.findall root ("action")) := rfl

/-! ## Concrete documents used by witnesses and counterexamples -/

def mkTagChild (k v : String) : XML := XML.mk ("tag") [("k", k), ("v", v)] []

def mkNd (lon lat : String) : XML := XML.mk ("nd") [("lon", lon), ("lat", lat)] []

def mkCreateAction (e : XML) : XML :=
  XML.mk ("action") [("type", "create")] [XML.mk ("new") [] [e]]

def mkDoc (acts : List XML) : XML := XML.mk ("osm") [] acts

def emptyDoc : XML := mkDoc []

def c1way : XML :=
  XML.mk ("way") [("id", "12"), ("changeset", "2")]
    [mkNd ("2.5") ("1.5"), mkNd ("3.5") ("4.5")]

def c2node : XML :=
  XML.mk ("node") [("id", "1"), ("changeset", "5"), ("lat", "1.0"), ("lon", "2.0")] []

def c2doc : XML := mkDoc [mkCreateAction c2node]

def c2okState : ParseState :=
  { nodes := [{ epochMillis := none, id := some ("1"), version := none,
                changeset := some ("5"), username := none, uid := none,
                lat := some ("1.0"), lon := some ("2.0") }],
    ways := [], relations := [], members := [], tags := [], changeset := some 5 }

def c3nodeNoCs : XML := XML.mk ("node") [("id", "2"), ("lat", "1.0"), ("lon", "2.0")] []

def c3doc : XML := mkDoc [mkCreateAction c3nodeNoCs]

def c3nodeBadCs : XML := XML.mk ("node") [("id", "3"), ("changeset", "abc")] []

def c3doc2 : XML := mkDoc [mkCreateAction c3nodeBadCs]

def c4rel : XML :=
  XML.mk ("relation") [("id", "9"), ("changeset", "7")]
    [XML.mk ("member") [("ref", "1"), ("role", "outer"), ("type", "way")] [],
     XML.mk ("member") [("ref", "2"), ("role", "inner"), ("type", "way")] []]

def c4doc : XML := mkDoc [mkCreateAction c4rel]

def c5node : XML :=
  XML.mk ("node") [("id", "7"), ("version", "2"), ("changeset", "1")]
    [mkTagChild ("id") ("x"), mkTagChild ("name") ("y")]

def c5doc : XML := mkDoc [mkCreateAction c5node]

def c5res : ParseState :=
  { nodes := [{ epochMillis := none, id := some ("7"), version := some ("2"),
                changeset := some ("1"), username := none, uid := none,
                lat := none, lon := none }],
    ways := [], relations := [], members := [],
    tags := [{ epochMillis := none, type := "node", id := some ("7"),
               key := some ("id"), value := some ("x") },
             { epochMillis := none, type := "node", id := some ("7"),
               key := some ("name"), value := some ("y") }],
    changeset := some 1 }

def tsNumElem : XML := XML.mk ("node") [("timestamp", "1740999324000")] []

def c7bounds : XML :=
  XML.mk ("bounds") [("id", "8"), ("changeset", "3")] [mkTagChild ("a") ("b")]

def c7doc : XML := mkDoc [mkCreateAction c7bounds]

def c7goodNode : XML := XML.mk ("node") [("id", "10"), ("changeset", "4")] []

def c7noCs : XML := XML.mk ("way") [("id", "11")] []

def c7doc2 : XML := mkDoc [mkCreateAction c7goodNode, mkCreateAction c7noCs]

def c7emptyAction : XML := XML.mk ("action") [("type", "create")] []

def c9node : XML :=
  XML.mk ("node") [("id", "4"), ("changeset", "6"), ("lat", "0.5"), ("lon", "-1.5")] []

def c9modify : XML :=
  XML.mk ("action") [("type", "modify")]
    [XML.mk ("new") [] [XML.mk ("node") [("id", "5"), ("changeset", "99")] []]]

def c9rel : XML :=
  XML.mk ("relation") [("id", "7"), ("changeset", "7")]
    [mkTagChild ("route") ("bus"),
     XML.mk ("member") [("ref", "4"), ("role", ""), ("type", "node")] []]

def c9doc : XML := mkDoc [c9modify, mkCreateAction c9node, mkCreateAction c9rel]

def c9res : ParseState :=
  { nodes := [{ epochMillis := none, id := some ("4"), version := none,
                changeset := some ("6"), username := none, uid := none,
                lat := some ("0.5"), lon := some ("-1.5") }],
    ways := [],
    relations := [{ epochMillis := none, id := some ("7"), version := none,
                    changeset := some ("7"), username := none, uid := none }],
    members := [],
    tags := [{ epochMillis := none, type := "relation", id := some ("7"),
               key := some ("route"), value := some ("bus") }],
    changeset := some 7 }

def c10elem : XML := XML.mk ("bounds") [("changeset", "3"), ("minlat", "0.0")] []

/-! ## Claim theorems -/

/-- C1: for every way create element, the geometry built from its usable
coordinate list L is the empty string when L is empty; POLYGON((lon1 lat1, ...))
when L has at least 4 pairs and the first pair exactly equals the last (no
epsilon — decidable equality on the exact coordinate values); and otherwise
LINESTRING(lon1 lat1, ...); coordinates are printed lon before lat, separated
by comma-space, and the way row's geometry field is exactly this string. -/
theorem way_geometry_wkt_cases (L : List (ℚ × ℚ)) :
    (L = [] → buildWkt L = "") ∧
    (4 ≤ List.length L → List.head? L = List.getLast? L →
      buildWkt L = "POLYGON((" ++ String.intercalate (", ")
        (List.map (fun p => formatFloat p.fst ++ " " ++ formatFloat p.snd) L) ++ "))") ∧
    (L ≠ [] → ¬(4 ≤ List.length L ∧ List.head? L = List.getLast? L) →
      buildWkt L = "LINESTRING(" ++ String.intercalate (", ")
        (List.map (fun p => formatFloat p.fst ++ " " ++ formatFloat p.snd) L) ++ ")") ∧
    (∀ tzOff e, (wayRowOf tzOff e).geometry = buildWkt (wayCoords e)) := by
  refine ⟨?_, ?_, ?_, fun tzOff e => rfl⟩
  · intro h
    unfold buildWkt
    rw [if_pos h]
  · intro h1 h2
    have hne : ¬ L = [] := by
      intro h
      subst h
      simp at h1
    unfold buildWkt
    rw [if_neg hne, if_pos ⟨h1, h2⟩]
    rfl
  · intro h1 h2
    unfold buildWkt
    rw [if_neg h1, if_neg h2]
    rfl

/-- Witness for C1 at concrete inputs: a closed 4-point ring, an open 2-point
line, the empty list, and a concrete way element. -/
theorem way_geometry_wkt_cases_witness :
    buildWkt [((0 : ℚ), (0 : ℚ)), (1, 0), (1, 1), (0, 0)] =
      "POLYGON((0.0 0.0, 1.0 0.0, 1.0 1.0, 0.0 0.0))" ∧
    buildWkt [((0 : ℚ), (0 : ℚ)), (1, 1)] = "LINESTRING(0.0 0.0, 1.0 1.0)" ∧
    buildWkt [] = "" ∧
    (wayRowOf 0 c1way).geometry = buildWkt (wayCoords c1way) := by
  refine ⟨?_, ?_, ?_, ?_⟩
  · rw [(way_geometry_wkt_cases [((0 : ℚ), (0 : ℚ)), (1, 0), (1, 1), (0, 0)]).2.1
      (by decide) (by decide)]
    decide
  · rw [(way_geometry_wkt_cases [((0 : ℚ), (0 : ℚ)), (1, 1)]).2.2.1
      (by decide) (by decide)]
    decide
  · exact (way_geometry_wkt_cases []).1 rfl
  · exact (way_geometry_wkt_cases []).2.2.2 0 c1way

/-- C2 (code bug): `max_changeset_id` is never initialized.  With the global
unset, the parse succeeds only when the diff has no created element — and the
final checkpoint read at line 279 then still raises NameError — while any
created element makes line 86 itself raise NameError.  Had the global held a
value g, the final value would be the max-fold of line 86 over the created
elements starting from g, which is the fold the claim describes when g = 0. -/
theorem checkpoint_global_uninitialized :
    (∀ tzOff root r, parse_osm_create tzOff root none = Except.ok r →
      createElems root = [] ∧ r.changeset = none ∧
      readGlobal r.changeset = (Except.error PyErr.nameError : Except PyErr Int)) ∧
    parse_osm_create 0 c2doc none = Except.error PyErr.nameError ∧
    (∀ tzOff root g r, parse_osm_create tzOff root (some g) = Except.ok r →
      ∃ w, csFold g (createElems root) = Except.ok w ∧ r.changeset = some w) := by
  refine ⟨?_, rfl, ?_⟩
  · intro tzOff root r h
    rw [parse_eq_fold] at h
    obtain ⟨hr, hel⟩ :=
      foldActions_unset tzOff (XML.findall root ("action")) (initState none) r rfl h
    subst hr
    exact ⟨by rw [createElems_eq]; exact hel, rfl, rfl⟩
  · intro tzOff root g r h
    rw [parse_eq_fold] at h
    have h2 :=
      foldActions_ok_changeset tzOff (XML.findall root ("action")) (initState g) r g h rfl
    rw [createElems_eq]
    exact h2

/-- Witness for C2: the empty diff under the unset global, and the single-node
diff under an initialized global. -/
theorem checkpoint_global_uninitialized_witness :
    (createElems emptyDoc = [] ∧ (initState none).changeset = none ∧
      readGlobal (initState none).changeset =
        (Except.error PyErr.nameError : Except PyErr Int)) ∧
    (∃ w, csFold 0 (createElems c2doc) = Except.ok w ∧ c2okState.changeset = some w) := by
  constructor
  · exact checkpoint_global_uninitialized.1 0 emptyDoc (initState none) rfl
  · exact checkpoint_global_uninitialized.2.2 0 c2doc 0 c2okState rfl

/-- C3 counterexample: a create element with a missing changeset attribute
aborts the whole parse with TypeError, and one with a non-numeric changeset
aborts it with ValueError — neither contributes a default 0. -/
theorem changeset_coercion_raises_cex :
    parse_osm_create 0 c3doc (some 0) = Except.error PyErr.typeError ∧
    parse_osm_create 0 c3doc2 (some 0) = Except.error PyErr.valueError := ⟨rfl, rfl⟩

/-- C3 amended: line 86 applies bare `int()` to the raw changeset attribute —
absence raises TypeError and an unparsable value raises ValueError, aborting
the element's batch; the id, version and uid attributes are never
integer-parsed at all: their raw values (None when absent) are copied verbatim
into the rows, which indeed never raises. -/
theorem changeset_coercion_behavior :
    (∀ tzOff st e v, ParseState.changeset st = some v →
      XML.attr e ("changeset") = none →
      processElem tzOff st e = Except.error PyErr.typeError) ∧
    (∀ tzOff st e v s, ParseState.changeset st = some v →
      XML.attr e ("changeset") = some s → parseIntStr s = none →
      processElem tzOff st e = Except.error PyErr.valueError) ∧
    (∀ tzOff e, (nodeRowOf tzOff e).id = XML.attr e ("id") ∧
      (nodeRowOf tzOff e).version = XML.attr e ("version") ∧
      (nodeRowOf tzOff e).uid = XML.attr e ("uid")) := by
  refine ⟨?_, ?_, fun tzOff e => ⟨rfl, rfl, rfl⟩⟩
  · intro tzOff st e v hg ha
    apply processElem_err tzOff st e v PyErr.typeError hg
    rw [ha]
    rfl
  · intro tzOff st e v s hg ha hs
    apply processElem_err tzOff st e v PyErr.valueError hg
    rw [ha, pyIntOf_some]
    exact pyIntStr_none s hs

/-- Witness for C3 at concrete elements. -/
theorem changeset_coercion_behavior_witness :
    processElem 0 (initState (some 0)) c3nodeNoCs = Except.error PyErr.typeError ∧
    processElem 0 (initState (some 0)) c3nodeBadCs = Except.error PyErr.valueError := by
  constructor
  · exact changeset_coercion_behavior.1 0 (initState (some 0)) c3nodeNoCs 0 rfl rfl
  · exact changeset_coercion_behavior.2.1 0 (initState (some 0)) c3nodeBadCs 0 ("abc")
      rfl rfl rfl

/-- C4 (code bug): for a relation with two members, the parse returns an EMPTY
members list — the per-member dicts of lines 165-170 are built (shown by the
second conjunct, in source member order) but `members_rows.append` is missing,
so they are discarded. -/
theorem member_rows_never_appended :
    parse_osm_create 0 c4doc (some 0) = Except.ok
      { nodes := [], ways := [],
        relations := [{ epochMillis := none, id := some ("9"), version := none,
                        changeset := some ("7"), username := none, uid := none }],
        members := [], tags := [], changeset := some 7 } ∧
    List.map (memberRowOf (XML.attr c4rel ("id"))) (XML.findall c4rel ("member")) =
      [{ relationId := some ("9"), memberId := some ("1"), memberRole := some ("outer"),
         memberType := some ("way") },
       { relationId := some ("9"), memberId := some ("2"), memberRole := some ("inner"),
         memberType := some ("way") }] := ⟨rfl, rfl⟩

/-- C5 counterexample: tag extraction emits a row whose key IS "id" (from a
`<tag k="id">` child), and emits no row for the element's `version` attribute
pair — both contrary to the claim. -/
theorem tag_rows_reserved_id_cex :
    parse_osm_create 0 c5doc (some 0) = Except.ok c5res ∧
    List.any c5res.tags (fun row => row.key == some ("id")) = true ∧
    List.all c5res.tags (fun row => !(row.key == some ("version"))) = true := ⟨rfl, rfl, rfl⟩

/-- C5 amended: tag extraction is applied uniformly to created elements of
every kind, before the kind dispatch, and emits exactly one
row per `<tag>` child (key from its `k` attribute, value from its `v`
attribute), in document order; element attributes are not emitted as tag rows
and no key — including "id" — is excluded. -/
theorem tag_rows_per_tag_child :
    (∀ tzOff root g r, parse_osm_create tzOff root g = Except.ok r →
      r.tags = List.flatten (List.map (tagRowsOf tzOff) (createElems root))) ∧
    (∀ tzOff e, tagRowsOf tzOff e = List.map
      (fun t => { epochMillis := elemEpochMillis tzOff e, type := XML.tag e,
                  id := XML.attr e ("id"), key := XML.attr t ("k"),
                  value := XML.attr t ("v") }) (XML.findall e ("tag"))) := by
  refine ⟨?_, fun tzOff e => rfl⟩
  intro tzOff root g r h
  rw [parse_eq_fold] at h
  have h2 := foldActions_ok tzOff (XML.findall root ("action")) (initState g) r h
  rw [createElems_eq, h2.2.2.2.2]
  simp [initState]

/-- Witness for C5 at the concrete document. -/
theorem tag_rows_per_tag_child_witness :
    c5res.tags = List.flatten (List.map (tagRowsOf 0) (createElems c5doc)) :=
  tag_rows_per_tag_child.1 0 c5doc (some 0) c5res rfl

/-- C6 counterexample: an already-numeric timestamp is NOT treated as epoch
milliseconds — it fails the single strptime format and yields None — there is
no numeric-seconds fallback, and under TZ=UTC the ISO example yields
1741002924000, not the claimed 1740999324000 (which arises only under a UTC+1
local timezone, since `.timestamp()` is applied to a naive datetime). -/
theorem timestamp_numeric_not_accepted_cex :
    tsToEpochMillis 0 ("1740999324000") = none ∧
    tsToEpochMillis 0 ("1740999324") = none ∧
    elemEpochMillis 0 tsNumElem = none ∧
    tsToEpochMillis 0 ("2025-03-03T11:55:24Z") = some 1741002924000 ∧
    ¬ tsToEpochMillis 0 ("2025-03-03T11:55:24Z") = some 1740999324000 := by
  refine ⟨rfl, rfl, rfl, by decide, by decide⟩

/-- C6 amended: timestamp parsing accepts exactly the ISO-8601 shape
"YYYY-MM-DDThh:mm:ssZ" and converts it with the process-local-timezone
`.timestamp()` (offset tzOff): the spec's example value 1740999324000 arises at
tzOff = 3600 (UTC+1), while TZ=UTC gives 1741002924000; every other value —
numeric strings included — yields a null timestamp rather than raising, as do
a missing or empty timestamp attribute. -/
theorem timestamp_parse_policy :
    tsToEpochMillis 3600 ("2025-03-03T11:55:24Z") = some 1740999324000 ∧
    tsToEpochMillis 0 ("2025-03-03T11:55:24Z") = some 1741002924000 ∧
    (∀ tzOff t, parseIsoTs t = none → tsToEpochMillis tzOff t = none) ∧
    (∀ tzOff e, XML.attr e ("timestamp") = none → elemEpochMillis tzOff e = none) ∧
    (∀ tzOff e, XML.attr e ("timestamp") = some ("") → elemEpochMillis tzOff e = none) := by
  refine ⟨by decide, by decide, ?_, ?_, ?_⟩
  · intro tzOff t h
    unfold tsToEpochMillis
    rw [h]
  · intro tzOff e h
    unfold elemEpochMillis
    rw [h]
  · intro tzOff e h
    unfold elemEpochMillis
    rw [h]
    rfl

/-- Witness for C6 at concrete inputs. -/
theorem timestamp_parse_policy_witness :
    tsToEpochMillis 0 ("1740999324000") = none ∧
    elemEpochMillis 0 (XML.mk ("node") [] []) = none ∧
    elemEpochMillis 0 (XML.mk ("node") [("timestamp", "")] []) = none := by
  refine ⟨?_, ?_, ?_⟩
  · exact timestamp_parse_policy.2.2.1 0 ("1740999324000") rfl
  · exact timestamp_parse_policy.2.2.2.1 0 (XML.mk ("node") [] []) rfl
  · exact timestamp_parse_policy.2.2.2.2 0 (XML.mk ("node") [("timestamp", "")] []) rfl

/-- C7 counterexample: a create element with an unrecognized tag is NOT
"skipped silently with no rows" — its tag rows are still emitted (and its
changeset folded); and a single element with a missing changeset attribute
aborts decoding of the whole document, sibling create actions included. -/
theorem malformed_action_cex :
    (parse_osm_create 0 c7doc (some 0) = Except.ok
      { nodes := [], ways := [], relations := [], members := [],
        tags := [{ epochMillis := none, type := "bounds", id := some ("8"),
                   key := some ("a"), value := some ("b") }],
        changeset := some 3 } ∧
      tagRowsOf 0 c7bounds ≠ []) ∧
    parse_osm_create 0 c7doc2 (some 0) = Except.error PyErr.typeError := by
  exact ⟨⟨rfl, by decide⟩, rfl⟩

/-- C7 amended: a create action with no element is skipped silently and the
fold continues with its siblings unaffected; an element with an unrecognized
tag contributes no node/way/relation/member row (though its tag rows and
changeset still contribute, see C10); but a create element whose changeset
attribute is missing raises TypeError, aborting the decode of the whole
document. -/
theorem malformed_action_handling :
    (∀ tzOff st a, XML.attr a ("type") = some ("create") → findCreatedElem a = none →
      processAction tzOff st a = Except.ok st) ∧
    (∀ tzOff st st' a rest, processAction tzOff st a = Except.ok st' →
      foldActions tzOff st (a :: rest) = foldActions tzOff st' rest) ∧
    (∀ tzOff st a e v rest, XML.attr a ("type") = some ("create") →
      findCreatedElem a = some e → ParseState.changeset st = some v →
      XML.attr e ("changeset") = none →
      foldActions tzOff st (a :: rest) = Except.error PyErr.typeError) := by
  refine ⟨?_, ?_, ?_⟩
  · intro tzOff st a h1 h2
    exact processAction_no_elem tzOff st a h1 h2
  · intro tzOff st st' a rest h
    rw [foldActions_cons, h]
  · intro tzOff st a e v rest h1 h2 h3 h4
    rw [foldActions_cons, processAction_elem tzOff st a e h1 h2,
      processElem_err tzOff st e v PyErr.typeError h3 (by unfold pyIntOf; rw [h4])]

/-- Witness for C7 at concrete actions. -/
theorem malformed_action_handling_witness :
    processAction 0 (initState (some 0)) c7emptyAction = Except.ok (initState (some 0)) ∧
    foldActions 0 (initState (some 0)) [c7emptyAction] =
      foldActions 0 (initState (some 0)) [] ∧
    foldActions 0 (initState (some 0)) [mkCreateAction c7noCs] =
      Except.error PyErr.typeError := by
  refine ⟨?_, ?_, ?_⟩
  · exact malformed_action_handling.1 0 (initState (some 0)) c7emptyAction rfl rfl
  · exact malformed_action_handling.2.1 0 (initState (some 0)) (initState (some 0))
      c7emptyAction [] rfl
  · exact malformed_action_handling.2.2 0 (initState (some 0)) (mkCreateAction c7noCs)
      c7noCs 0 [] rfl rfl rfl rfl

/-- C8 (code bug): the checkpoint write of lines 279-281 can never succeed —
`ETAG_PATH` is never assigned, so line 280 raises NameError; and even with a
path supplied, line 281 passes the int `max_changeset_id` to `fh.write`, which
accepts only str and raises TypeError.  Writing the decimal text (what the
claim describes) is what `fileWrite` would accept. -/
theorem checkpoint_write_crashes :
    checkpointEpilogue ETAG_PATH (some 12) = Except.error PyErr.nameError ∧
    checkpointEpilogue (some ("osm-etag")) (some 12) = Except.error PyErr.typeError ∧
    checkpointEpilogue ETAG_PATH none = Except.error PyErr.nameError ∧
    fileWrite (PyVal.str ("12")) = Except.ok ("12") := ⟨rfl, rfl, rfl, rfl⟩

/-- C9: dropping every non-create action leaves the parse unchanged, and on
success each output row list is the document-ordered image of the created
elements of that kind (members always empty, tags flattened in document
order). -/
theorem create_filter_and_order :
    (∀ tzOff root g, parse_osm_create tzOff (onlyCreateActions root) g =
      parse_osm_create tzOff root g) ∧
    (∀ tzOff root g r, parse_osm_create tzOff root g = Except.ok r →
      r.nodes = List.map (nodeRowOf tzOff)
        (List.filter (fun e => XML.tag e == ("node")) (createElems root)) ∧
      r.ways = List.map (wayRowOf tzOff)
        (List.filter (fun e => XML.tag e == ("way")) (createElems root)) ∧
      r.relations = List.map (relationRowOf tzOff)
        (List.filter (fun e => XML.tag e == ("relation")) (createElems root)) ∧
      r.members = [] ∧
      r.tags = List.flatten (List.map (tagRowsOf tzOff) (createElems root))) := by
  constructor
  · exact parse_onlyCreate
  · intro tzOff root g r h
    rw [parse_eq_fold] at h
    obtain ⟨hn, hw, hr, hm, ht⟩ :=
      foldActions_ok tzOff (XML.findall root ("action")) (initState g) r h
    rw [createElems_eq]
    refine ⟨?_, ?_, ?_, ?_, ?_⟩
    · rw [hn, flatten_map_ite ("node") (nodeRowOf tzOff) (nodeRowsOf tzOff) (fun e => rfl)]
      simp [initState]
    · rw [hw, flatten_map_ite ("way") (wayRowOf tzOff) (wayRowsOf tzOff) (fun e => rfl)]
      simp [initState]
    · rw [hr, flatten_map_ite ("relation") (relationRowOf tzOff) (relationRowsOf tzOff)
        (fun e => rfl)]
      simp [initState]
    · rw [hm]
      rfl
    · rw [ht]
      simp [initState]

/-- Witness for C9 at a concrete document holding a modify action, a created
node and a created relation. -/
theorem create_filter_and_order_witness :
    parse_osm_create 0 c9doc (some 0) = Except.ok c9res ∧
    (c9res.nodes = List.map (nodeRowOf 0)
      (List.filter (fun e => XML.tag e == ("node")) (createElems c9doc)) ∧
     c9res.ways = List.map (wayRowOf 0)
      (List.filter (fun e => XML.tag e == ("way")) (createElems c9doc)) ∧
     c9res.relations = List.map (relationRowOf 0)
      (List.filter (fun e => XML.tag e == ("relation")) (createElems c9doc)) ∧
     c9res.members = [] ∧
     c9res.tags = List.flatten (List.map (tagRowsOf 0) (createElems c9doc))) := by
  refine ⟨rfl, ?_⟩
  exact create_filter_and_order.2 0 c9doc (some 0) c9res rfl

/-- C10: a create element whose tag is none of node/way/relation still has its
tag rows emitted and its changeset folded into the checkpoint (both happen
before the kind dispatch); only the node/way/relation row is omitted. -/
theorem unrecognized_type_tags_and_checkpoint (tzOff : Int) (e : XML) (g cs : Int)
    (h1 : XML.tag e ≠ "node") (h2 : XML.tag e ≠ "way") (h3 : XML.tag e ≠ "relation")
    (h4 : pyIntOf (XML.attr e ("changeset")) = Except.ok cs) :
    parse_osm_create tzOff (mkDoc [mkCreateAction e]) (some g) =
      Except.ok { nodes := [], ways := [], relations := [], members := [],
                  tags := tagRowsOf tzOff e, changeset := some (max g cs) } := by
  rw [parse_eq_fold]
  have hfa : XML.findall (mkDoc [mkCreateAction e]) ("action") = [mkCreateAction e] := rfl
  rw [hfa, foldActions_cons,
    processAction_elem tzOff (initState (some g)) (mkCreateAction e) e rfl rfl,
    processElem_ok tzOff (initState (some g)) e g cs rfl h4,
    dispatchRows_other tzOff _ e h1 h2 h3]
  rfl

/-- Witness for C10 at a concrete unrecognized element. -/
theorem unrecognized_type_tags_and_checkpoint_witness :
    parse_osm_create 0 (mkDoc [mkCreateAction c10elem]) (some 2) =
      Except.ok { nodes := [], ways := [], relations := [], members := [],
                  tags := tagRowsOf 0 c10elem, changeset := some (max 2 3) } :=
  unrecognized_type_tags_and_checkpoint 0 c10elem 2 3 (by decide) (by decide) (by decide) rfl

end Consumer
